import Mathlib

/-!
Shallow embedding of the llm repository's `ggml` wrapper crate
(`crates/ggml/src/lib.rs`) and of the BLOOM model crate
(`crates/models/bloom/src/lib.rs`), together with theorems settling the
frozen claims about them.

Byte streams are modelled as `List ℕ` (each entry a byte value; decoders
reduce entries mod 256). Machine integers are `ℕ`/`ℤ` with explicit
`% 2^32` where wrap-around matters. Fallible code returns `Except`.
-/

namespace Ggml

/-- Errors produced while loading, mirroring `crate::format::LoadError`.
The `format` module is not under `src/`; the variants used here are
modelled from the spec: an unrecognized magic number is surfaced as a
typed, recoverable load failure carrying the magic value, and a short
read surfaces as a recoverable read failure. -/
inductive LoadError where
  | invalidMagic (magic : ℕ)
  | eof
  | invalidIntegerConversion
  | invalidFileType
deriving DecidableEq

/-- Modelled from the spec: `util::read_u32` (the `util` module is not
under `src/`) reads a 4-byte little-endian unsigned integer, failing
recoverably on a short stream. -/
def read_u32 : List ℕ → Except LoadError (ℕ × List ℕ)
  | b0 :: b1 :: b2 :: b3 :: rest =>
      .ok (b0 % 256 + 256 * (b1 % 256) + 65536 * (b2 % 256)
            + 16777216 * (b3 % 256), rest)
  | _ => .error .eof

/-- Modelled from the spec: `util::write_u32` writes a 4-byte
little-endian unsigned integer. -/
def write_u32 (v : ℕ) : List ℕ :=
  [v % 256, v / 256 % 256, v / 65536 % 256, v / 16777216 % 256]

/-- Magic constant for ggml files (unversioned). -/
def FILE_MAGIC_GGML : ℕ := 0x67676d6c
/-- Magic constant for ggml files (versioned, ggmf). -/
def FILE_MAGIC_GGMF : ℕ := 0x67676d66
/-- Magic constant for ggml files (versioned, ggjt). -/
def FILE_MAGIC_GGJT : ℕ := 0x67676a74
/-- Magic constant for ggla files (LoRA adapter). -/
def FILE_MAGIC_GGLA : ℕ := 0x67676C61

/-- The format of the file containing the model (`ContainerType`). -/
inductive ContainerType where
  | Ggml
  | Ggmf (version : ℕ)
  | Ggjt (version : ℕ)
  | Ggla (version : ℕ)
deriving DecidableEq

/-- Does this container type support mmap? (`ContainerType::support_mmap`). -/
def ContainerType.support_mmap : ContainerType → Bool
  | .Ggml => false
  | .Ggmf _ => false
  | .Ggla _ => false
  | .Ggjt _ => true

/-- Read the container type from a reader (`ContainerType::read`). -/
def ContainerType.read (bytes : List ℕ) :
    Except LoadError (ContainerType × List ℕ) := do
  let (magic, rest) ← read_u32 bytes
  if magic = FILE_MAGIC_GGML then
    pure (.Ggml, rest)
  else if magic = FILE_MAGIC_GGMF then
    let (version, rest2) ← read_u32 rest
    pure (.Ggmf version, rest2)
  else if magic = FILE_MAGIC_GGJT then
    let (version, rest2) ← read_u32 rest
    pure (.Ggjt version, rest2)
  else if magic = FILE_MAGIC_GGLA then
    let (version, rest2) ← read_u32 rest
    pure (.Ggla version, rest2)
  else
    throw (.invalidMagic magic)

/-- Write the container type to a writer (`ContainerType::write`),
modelled as producing the byte list that would be written. -/
def ContainerType.write : ContainerType → List ℕ
  | .Ggml => write_u32 FILE_MAGIC_GGML
  | .Ggmf version => write_u32 FILE_MAGIC_GGMF ++ write_u32 version
  | .Ggjt version => write_u32 FILE_MAGIC_GGJT ++ write_u32 version
  | .Ggla version => write_u32 FILE_MAGIC_GGLA ++ write_u32 version

/-- Version payload carried by a container variant (0 for unversioned
`Ggml`), used to state the 32-bit range side condition. -/
def ContainerType.versionOf : ContainerType → ℕ
  | .Ggml => 0
  | .Ggmf version => version
  | .Ggjt version => version
  | .Ggla version => version

/-- The type of a value in ggml (`Type`, whose source alias `ElementType`
is usable as a Lean name). -/
inductive ElementType where
  | Q4_0
  | Q4_1
  | Q5_0
  | Q5_1
  | Q8_0
  | Q8_1
  | I32
  | F16
  | F32
  | LegacyQ4_2
deriving DecidableEq

/-- Returns whether this type is quantized (`Type::is_quantized`). -/
def ElementType.is_quantized : ElementType → Bool
  | .Q4_0 => true
  | .Q4_1 => true
  | .Q5_0 => true
  | .Q5_1 => true
  | .Q8_0 => true
  | .Q8_1 => true
  | .I32 => false
  | .F16 => false
  | .F32 => false
  | .LegacyQ4_2 => true

/-- Ways `quantize_impl` can panic before reaching the external codec:
its two `assert_eq` checks; the remainder-by-zero panic raised when
evaluating `n_elements % n_elements_0` with `n_elements_0 = 0` (Rust
panics on `%` by zero before the second assertion is checked); and the
two `try_into().unwrap()` panics converting `n_elements` and then
`n_elements_0` from `usize` to `c_int` (= `i32`) in the codec call's
argument list, which fire for values of `2^31` or more (arguments are
evaluated left to right, after the output and history allocations). -/
inductive QuantizePanic where
  | assertSrcLenNe
  | remainderByZero
  | assertNotDivisible
  | unwrapNElementsCInt
  | unwrapNElements0CInt
deriving DecidableEq

/-- Contains the result of a quantization operation (`QuantizationResult`). -/
structure QuantizationResult where
  output : List ℕ
  history : List ℤ
deriving DecidableEq

/-- Execution trace of one `quantize_impl` call that reached the codec:
the length of the `vec![0u8; n_elements * 4]` buffer it allocated, and
the final result after trimming to the codec's emitted length. -/
structure QuantizeTrace where
  allocatedOutputSize : ℕ
  result : QuantizationResult
deriving DecidableEq

/-- Semantics of `Vec::resize(output_size, 0u8)`: truncate or pad with
zero bytes to the requested length. -/
def resizeBytes (l : List ℕ) (n : ℕ) : List ℕ :=
  l.take n ++ List.replicate (n - l.length) 0

/-- Effect signature of the external C codec passed to `quantize_impl`
(`ggml_sys::ggml_quantize_q4_0` / `_q4_1` are foreign code, outside this
repository): given the source floats, the zero-initialized output
buffer, `n_elements`, `n_elements_0` and the zero-initialized histogram,
it returns the emitted byte count, the output buffer contents after the
call, and the histogram after the call. -/
def Quantizer : Type :=
  List Float → List ℕ → ℕ → ℕ → List ℤ → ℕ × List ℕ × List ℤ

/-- The quantization driver (`quantize_impl`): runs the two assertions
(with Rust's remainder-by-zero panic in between), allocates the
4-bytes-per-element output buffer and the 16-entry histogram, converts
`n_elements` and `n_elements_0` to `c_int` (`try_into().unwrap()`,
panicking at `2^31` or above), calls the codec, and trims the output to
the emitted length. -/
def quantize_impl (src : List Float) (n_elements n_elements_0 : ℕ)
    (quantizer : Quantizer) : Except QuantizePanic QuantizeTrace :=
  if src.length ≠ n_elements then .error .assertSrcLenNe
  else if n_elements_0 = 0 then .error .remainderByZero
  else if n_elements % n_elements_0 ≠ 0 then .error .assertNotDivisible
  else if 2 ^ 31 ≤ n_elements then .error .unwrapNElementsCInt
  else if 2 ^ 31 ≤ n_elements_0 then .error .unwrapNElements0CInt
  else
    let output0 := List.replicate (n_elements * 4) 0
    let history0 := List.replicate 16 (0 : ℤ)
    let r := quantizer src output0 n_elements n_elements_0 history0
    .ok { allocatedOutputSize := output0.length,
          result := { output := resizeBytes r.2.1 r.1, history := r.2.2 } }

/-- Quantizes `src` using q4_0 quantization (`quantize_q4_0`); the
external codec is a parameter, as in the source where it is the foreign
function `ggml_sys::ggml_quantize_q4_0`. -/
def quantize_q4_0 (ggml_quantize_q4_0 : Quantizer) (src : List Float)
    (n_elements n_elements_0 : ℕ) : Except QuantizePanic QuantizeTrace :=
  quantize_impl src n_elements n_elements_0 ggml_quantize_q4_0

/-- Quantizes `src` using q4_1 quantization (`quantize_q4_1`). -/
def quantize_q4_1 (ggml_quantize_q4_1 : Quantizer) (src : List Float)
    (n_elements n_elements_0 : ℕ) : Except QuantizePanic QuantizeTrace :=
  quantize_impl src n_elements n_elements_0 ggml_quantize_q4_1

/-- Predicate picking out the outcomes where one of the two `assert_eq`
assertions in `quantize_impl` fired (the remainder-by-zero panic is a
panic but not an assertion failure). -/
def isAssertionFailure : Except QuantizePanic QuantizeTrace → Bool
  | .error .assertSrcLenNe => true
  | .error .assertNotDivisible => true
  | _ => false

/-- Allocated (pre-trim) output-buffer size of a successful
`quantize_impl` call, 0 for a panicking one. -/
def allocatedOf : Except QuantizePanic QuantizeTrace → ℕ
  | .ok t => t.allocatedOutputSize
  | .error _ => 0

/-- Codec stub standing in for the foreign quantizer in concrete
counterexamples and witnesses; the pre-codec panic behaviour of
`quantize_impl` does not depend on the codec. -/
def trivialQuantizer : Quantizer :=
  fun _ output _ _ history => (0, output, history)

end Ggml

namespace Bloom

/-- Identities of the leaf tensors referenced by `Bloom::evaluate`: the
session's KV cache tensors, the per-step token-embedding input, the
global weights, and the per-layer weights (indexed by layer). -/
inductive LeafId where
  | memory_k
  | memory_v
  | embd
  | tok_embeddings
  | norm_w
  | norm_bias
  | output_norm
  | output_norm_bias
  | output
  | attention_norm (il : ℕ)
  | attention_norm_bias (il : ℕ)
  | query_key_value (il : ℕ)
  | query_key_value_bias (il : ℕ)
  | wo (il : ℕ)
  | wo_bias (il : ℕ)
  | ffn_norm (il : ℕ)
  | ffn_norm_bias (il : ℕ)
  | w1 (il : ℕ)
  | w1_bias (il : ℕ)
  | w2 (il : ℕ)
  | w2_bias (il : ℕ)
deriving DecidableEq

/-- Graph operation kinds used by `Bloom::evaluate`, with their integer
immediates. View/reshape/permute immediates are element counts, byte
offsets and axis indices as passed in the source. The float immediates
of `op_scale` (the 1/sqrt scaling constant) and `op_alibi` (the bias-max
8.0) are not modelled (floating point); the structural claims do not
depend on them. `op_view_2d`'s byte-stride argument `nb` (taken from the
materialized tensor's runtime strides) is likewise not modelled. -/
inductive Op where
  | get_rows
  | norm
  | mul
  | add
  | repeat_rows
  | mul_mat
  | scale
  | alibi (n_past n_head : ℕ)
  | diag_mask_inf (n_past : ℕ)
  | soft_max
  | gelu
  | cpy
  | permute (a0 a1 a2 a3 : ℕ)
  | view_1d (length offset : ℕ)
  | view_2d (ne0 ne1 offset : ℕ)
  | reshape_3d (ne0 ne1 ne2 : ℕ)
deriving DecidableEq

/-- A tensor node of the computation graph built by `Bloom::evaluate`:
a leaf (weight, input or cache tensor), a freshly allocated destination
tensor (`new_tensor_2d`/`new_tensor_3d`/`new_f32`), or an operation node
with one or two tensor operands. -/
inductive T where
  | leaf (id : LeafId)
  | newF32
  | newTensor2d (ty : Ggml.ElementType) (ne0 ne1 : ℕ)
  | newTensor3d (ty : Ggml.ElementType) (ne0 ne1 ne2 : ℕ)
  | un (op : Op) (a : T)
  | bin (op : Op) (a b : T)
deriving DecidableEq

/-- Graph builder `Context::op_get_rows`. -/
def op_get_rows (a b : T) : T := .bin .get_rows a b
/-- Graph builder `Context::op_norm`. -/
def op_norm (a : T) : T := .un .norm a
/-- Graph builder `Context::op_mul`. -/
def op_mul (a b : T) : T := .bin .mul a b
/-- Graph builder `Context::op_add`. -/
def op_add (a b : T) : T := .bin .add a b
/-- Graph builder `Context::op_repeat`. -/
def op_repeat (a b : T) : T := .bin .repeat_rows a b
/-- Graph builder `Context::op_mul_mat`. -/
def op_mul_mat (a b : T) : T := .bin .mul_mat a b
/-- Graph builder `Context::op_scale`; the second operand is the scalar
tensor holding the scale value. -/
def op_scale (a b : T) : T := .bin .scale a b
/-- Graph builder `Context::op_alibi`. -/
def op_alibi (a : T) (n_past n_head : ℕ) : T := .un (.alibi n_past n_head) a
/-- Graph builder `Context::op_diag_mask_inf`. -/
def op_diag_mask_inf (a : T) (n_past : ℕ) : T := .un (.diag_mask_inf n_past) a
/-- Graph builder `Context::op_soft_max`. -/
def op_soft_max (a : T) : T := .un .soft_max a
/-- Graph builder `Context::op_gelu`. -/
def op_gelu (a : T) : T := .un .gelu a
/-- Graph builder `Context::op_cpy` (copy `a` into destination `b`). -/
def op_cpy (a b : T) : T := .bin .cpy a b
/-- Graph builder `Context::op_permute`. -/
def op_permute (a : T) (a0 a1 a2 a3 : ℕ) : T := .un (.permute a0 a1 a2 a3) a
/-- Graph builder `Context::op_view_1d` (element count, byte offset). -/
def op_view_1d (a : T) (length offset : ℕ) : T := .un (.view_1d length offset) a
/-- Graph builder `Context::op_view_2d` (extents and byte offset; the
runtime byte stride is not modelled). -/
def op_view_2d (a : T) (ne0 ne1 offset : ℕ) : T := .un (.view_2d ne0 ne1 offset) a
/-- Graph builder `Context::op_reshape_3d`. -/
def op_reshape_3d (a : T) (ne0 ne1 ne2 : ℕ) : T := .un (.reshape_3d ne0 ne1 ne2) a
/-- Graph builder `Context::new_f32` (scalar constant tensor; its float
value is not modelled). -/
def new_f32 : T := .newF32
/-- Graph builder `Context::new_tensor_2d`. -/
def new_tensor_2d (ty : Ggml.ElementType) (ne0 ne1 : ℕ) : T := .newTensor2d ty ne0 ne1
/-- Graph builder `Context::new_tensor_3d`. -/
def new_tensor_3d (ty : Ggml.ElementType) (ne0 ne1 ne2 : ℕ) : T :=
  .newTensor3d ty ne0 ne1 ne2

/-- The integer inputs of one `Bloom::evaluate` call: the model
hyperparameters it destructures, the model's `n_context_tokens`
(`n_ctx`), the session cursor `n_past`, the input token count `n`, the
element sizes of the session's two cache tensors, and the element type
of `memory_v` (used for the transposed-V destination tensor). -/
structure EvalParams where
  n_embd : ℕ
  n_head : ℕ
  n_layer : ℕ
  n_ctx : ℕ
  n_past : ℕ
  n : ℕ
  memKElSize : ℕ
  memVElSize : ℕ
  memVType : Ggml.ElementType
deriving DecidableEq

/-- Size in bytes of an `f32` (`std::mem::size_of::<f32>()`). -/
def sizeOfF32 : ℕ := 4

/-- The pre-layer part of `Bloom::evaluate`: token-embedding lookup
followed by the word-embeddings norm block. -/
def inputEmbeddingNorm : T :=
  let input_layer := op_get_rows (.leaf .tok_embeddings) (.leaf .embd)
  let input_layer := op_norm input_layer
  let input_layer := op_mul (op_repeat (.leaf .norm_w) input_layer) input_layer
  op_add (op_repeat (.leaf .norm_bias) input_layer) input_layer

/-- One transformer layer of `Bloom::evaluate` for layer index `il`,
given the previous `input_layer` expression. Returns the roots pushed
into the graph by `build_forward_expand` inside the layer (the two KV
cache copy nodes, when `n >= 1`) and the layer's output expression. -/
def bloomLayer (p : EvalParams) (il : ℕ) (input_layer : T) : List T × T :=
  let input_self_attention := input_layer
  -- norm
  let current := op_norm input_layer
  let current := op_mul (op_repeat (.leaf (.attention_norm il)) current) current
  let current := op_add (op_repeat (.leaf (.attention_norm_bias il)) current) current
  -- attention
  let current := op_mul_mat (.leaf (.query_key_value il)) current
  let current := op_add (op_repeat (.leaf (.query_key_value_bias il)) current) current
  -- self-attention
  let q_current := op_view_2d current p.n_embd p.n 0
  let k_current := op_view_2d current p.n_embd p.n (sizeOfF32 * p.n_embd)
  let v_current := op_view_2d current p.n_embd p.n (2 * sizeOfF32 * p.n_embd)
  -- store key and value to memory
  let roots :=
    if 1 ≤ p.n then
      let k := op_view_1d (.leaf .memory_k) (p.n * p.n_embd)
        (p.memKElSize * p.n_embd * (il * p.n_ctx + p.n_past))
      let v := op_view_1d (.leaf .memory_v) (p.n * p.n_embd)
        (p.memVElSize * p.n_embd * (il * p.n_ctx + p.n_past))
      [op_cpy k_current k, op_cpy v_current v]
    else []
  let big_q := op_permute
    (op_cpy q_current (new_tensor_3d .F32 (p.n_embd / p.n_head) p.n_head p.n))
    0 2 1 3
  let big_k := op_permute
    (op_reshape_3d
      (op_view_1d (.leaf .memory_k) ((p.n_past + p.n) * p.n_embd)
        (il * p.n_ctx * p.memKElSize * p.n_embd))
      (p.n_embd / p.n_head) p.n_head (p.n_past + p.n))
    0 2 1 3
  let k_q := op_mul_mat big_k big_q
  let k_q_scaled := op_scale k_q new_f32
  let k_q_scaled_alibi := op_alibi k_q_scaled p.n_past p.n_head
  let k_q_masked := op_diag_mask_inf k_q_scaled_alibi p.n_past
  let k_q_soft_max := op_soft_max k_q_masked
  let v_trans := op_cpy
    (op_permute
      (op_reshape_3d
        (op_view_1d (.leaf .memory_v) ((p.n_past + p.n) * p.n_embd)
          (il * p.n_ctx * p.memVElSize * p.n_embd))
        (p.n_embd / p.n_head) p.n_head (p.n_past + p.n))
      1 2 0 3)
    (new_tensor_3d p.memVType (p.n_past + p.n) (p.n_embd / p.n_head) p.n_head)
  let k_q_v := op_mul_mat v_trans k_q_soft_max
  let k_q_v_merged := op_permute k_q_v 0 2 1 3
  let current := op_cpy k_q_v_merged (new_tensor_2d .F32 p.n_embd p.n)
  -- projection
  let current := op_mul_mat (.leaf (.wo il)) current
  let current := op_add (op_repeat (.leaf (.wo_bias il)) current) current
  let input_feed_forward := op_add current input_self_attention
  -- feed-forward network
  let current := op_norm input_feed_forward
  let current := op_mul (op_repeat (.leaf (.ffn_norm il)) current) current
  let current := op_add (op_repeat (.leaf (.ffn_norm_bias il)) current) current
  let current := op_mul_mat (.leaf (.w1 il)) current
  let current := op_add (op_repeat (.leaf (.w1_bias il)) current) current
  let current := op_gelu current
  let current := op_mul_mat (.leaf (.w2 il)) current
  let current := op_add (op_repeat (.leaf (.w2_bias il)) current) current
  let current := op_add current input_feed_forward
  (roots, current)

/-- The layer loop of `Bloom::evaluate`, accumulating the roots pushed
by `build_forward_expand` and threading `input_layer`. -/
def evaluateLayers (p : EvalParams) : List T × T :=
  (List.range p.n_layer).foldl
    (fun acc il =>
      let step := bloomLayer p il acc.2
      (acc.1 ++ step.1, step.2))
    ([], inputEmbeddingNorm)

/-- The full graph built by one `Bloom::evaluate` call: the layer loop,
the final norm block and the lm_head, with the final output expression
pushed as the last root. Returns all graph roots and the output. -/
def evaluateGraph (p : EvalParams) : List T × T :=
  let layers := evaluateLayers p
  let input_layer := op_norm layers.2
  let input_layer := op_mul (op_repeat (.leaf .output_norm) input_layer) input_layer
  let input_layer :=
    op_add (op_repeat (.leaf .output_norm_bias) input_layer) input_layer
  let input_layer := op_mul_mat (.leaf .output) input_layer
  (layers.1 ++ [input_layer], input_layer)

/-- Tests whether a node is a causal-mask node `op_diag_mask_inf` with
cursor immediate `n_past`, applied to the alibi-biased scaled attention
scores (an `op_alibi` with the same `n_past` over an `op_scale` node). -/
def isMaskedScores (n_past : ℕ) : T → Bool
  | .un (.diag_mask_inf m) (.un (.alibi m2 _) (.bin .scale _ _)) =>
      (m == n_past) && (m2 == n_past)
  | _ => false

/-- Contribution of a single node to the mask check: an `op_soft_max`
node must have a masked-scores operand; all other nodes pass. -/
def nodeSoftMaxOk (n_past : ℕ) (op : Op) (a : T) : Bool :=
  match op with
  | .soft_max => isMaskedScores n_past a
  | _ => true

/-- Holds when every `op_soft_max` node in the expression has as its
operand a causal-mask node `op_diag_mask_inf` with immediate `n_past`
applied to the scaled attention scores. -/
def softMaxMasked (n_past : ℕ) : T → Bool
  | .leaf _ => true
  | .newF32 => true
  | .newTensor2d _ _ _ => true
  | .newTensor3d _ _ _ _ => true
  | .un op a => nodeSoftMaxOk n_past op a && softMaxMasked n_past a
  | .bin _ a b => softMaxMasked n_past a && softMaxMasked n_past b

/-- Contribution of a single node to the view collection: an
`op_view_1d` node applied directly to the leaf tensor `target` yields
its (element count, byte offset) immediates. -/
def nodeView (target : LeafId) (op : Op) (a : T) : List (ℕ × ℕ) :=
  match op, a with
  | .view_1d length offset, .leaf id =>
      if id = target then [(length, offset)] else []
  | _, _ => []

/-- Collects, in construction order, the (element count, byte offset)
immediates of every `op_view_1d` node whose operand is the leaf tensor
`target`. -/
def viewsOf (target : LeafId) : T → List (ℕ × ℕ)
  | .leaf _ => []
  | .newF32 => []
  | .newTensor2d _ _ _ => []
  | .newTensor3d _ _ _ _ => []
  | .un op a => nodeView target op a ++ viewsOf target a
  | .bin _ a b => viewsOf target a ++ viewsOf target b

/-- The `viewsOf` collector over a list of graph roots. -/
def viewsOfAll (target : LeafId) (roots : List T) : List (ℕ × ℕ) :=
  roots.foldr (fun a acc => viewsOf target a ++ acc) []

/-- Modelled from the spec: the session cache tensors `memory_k` and
`memory_v` (allocated by `llm_base::InferenceSession::new`, which is not
under `src/`) each hold `n_context_tokens * n_layer * n_embd` elements. -/
def cacheCapacityElems (p : EvalParams) : ℕ :=
  p.n_ctx * p.n_layer * p.n_embd

/-- Modelled from the spec: `llm_base::common::update_session` (not
under `src/`), which `Bloom::evaluate` calls unconditionally after graph
execution, advances `n_past` by the number of newly processed tokens. -/
def update_session_n_past (n_past n : ℕ) : ℕ :=
  n_past + n

/-- Concrete evaluate-call inputs exercising a context-window overflow:
a single-layer model with `n_embd = 1`, a context window of
`n_ctx = 4` tokens, four-byte cache elements, a session that has already
cached `n_past = 3` positions, and `n = 2` new input tokens, so that
`n_past + n = 5` exceeds `n_ctx = 4`. -/
def overflowParams : EvalParams :=
  { n_embd := 1, n_head := 1, n_layer := 1, n_ctx := 4, n_past := 3, n := 2,
    memKElSize := 4, memVElSize := 4, memVType := .F32 }

/-- Modelled from the spec: the `llm_base` `FileType` (not under
`src/`) is serialized by `Hyperparameters::write_ggml` as one 32-bit
integer via its infallible conversion to `i32`; it is modelled by that
integer code. -/
structure FileType where
  code : ℕ
deriving DecidableEq

/-- BLOOM hyperparameters (`Hyperparameters`). The Rust fields are
`usize`; they are modelled as naturals, with the `i32` range checks of
the serializers made explicit. -/
structure Hyperparameters where
  n_vocab : ℕ
  n_embd : ℕ
  n_mult : ℕ
  n_head : ℕ
  n_layer : ℕ
  file_type : FileType
deriving DecidableEq

/-- Error raised when a `usize` field does not fit in an `i32`
(`HyperparametersWriteError::InvalidIntegerConversion`, from the
`try_into()?` calls in `write_ggml`). -/
inductive HyperparametersWriteError where
  | invalidIntegerConversion
deriving DecidableEq

/-- Conversion `usize -> i32` (`try_into()?` on a write), failing when
the value exceeds `i32::MAX`. -/
def i32_try_from_usize (v : ℕ) : Except HyperparametersWriteError ℤ :=
  if v < 2 ^ 31 then .ok (v : ℤ) else .error .invalidIntegerConversion

/-- Modelled from the spec: `util::write_i32` (in `llm_base`, not under
`src/`) writes one 32-bit little-endian integer in two's complement. -/
def write_i32 (v : ℤ) : List ℕ :=
  Ggml.write_u32 (v % 2 ^ 32).toNat

/-- Modelled from the spec: `util::read_i32` reads one 32-bit
little-endian integer in two's complement. -/
def read_i32 (bytes : List ℕ) : Except Ggml.LoadError (ℤ × List ℕ) := do
  let (w, rest) ← Ggml.read_u32 bytes
  .ok (if w < 2 ^ 31 then (w : ℤ) else (w : ℤ) - 2 ^ 32, rest)

/-- Conversion `i32 -> usize` (`try_into()?` on a read), failing on
negative values. -/
def usize_try_from_i32 (v : ℤ) : Except Ggml.LoadError ℕ :=
  if 0 ≤ v then .ok v.toNat else .error .invalidIntegerConversion

/-- Modelled from the spec: `util::read_filetype` reads one `i32` and
converts it to a `FileType`, failing recoverably on values outside the
`FileType` range (modelled as the non-negative codes). -/
def read_filetype (bytes : List ℕ) : Except Ggml.LoadError (FileType × List ℕ) := do
  let (v, rest) ← read_i32 bytes
  if 0 ≤ v then .ok (⟨v.toNat⟩, rest) else .error .invalidFileType

/-- The field order shared by the serializers, made explicit once:
`n_vocab`, `n_embd`, `n_mult`, `n_head`, `n_layer`, `file_type`. -/
def Hyperparameters.write_ggml (hp : Hyperparameters) :
    Except HyperparametersWriteError (List ℕ) := do
  let n_vocab ← i32_try_from_usize hp.n_vocab
  let n_embd ← i32_try_from_usize hp.n_embd
  let n_mult ← i32_try_from_usize hp.n_mult
  let n_head ← i32_try_from_usize hp.n_head
  let n_layer ← i32_try_from_usize hp.n_layer
  .ok (write_i32 n_vocab ++ write_i32 n_embd ++ write_i32 n_mult ++
      write_i32 n_head ++ write_i32 n_layer ++
      write_i32 (hp.file_type.code : ℤ))

/-- Deserializer `Hyperparameters::read_ggml`: six fields read in the
same order they are written. -/
def Hyperparameters.read_ggml (bytes : List ℕ) :
    Except Ggml.LoadError (Hyperparameters × List ℕ) := do
  let (v1, r1) ← read_i32 bytes
  let n_vocab ← usize_try_from_i32 v1
  let (v2, r2) ← read_i32 r1
  let n_embd ← usize_try_from_i32 v2
  let (v3, r3) ← read_i32 r2
  let n_mult ← usize_try_from_i32 v3
  let (v4, r4) ← read_i32 r3
  let n_head ← usize_try_from_i32 v4
  let (v5, r5) ← read_i32 r4
  let n_layer ← usize_try_from_i32 v5
  let (file_type, r6) ← read_filetype r5
  .ok ({ n_vocab := n_vocab, n_embd := n_embd, n_mult := n_mult,
         n_head := n_head, n_layer := n_layer, file_type := file_type }, r6)

end Bloom

namespace Ggml

theorem read_u32_write_u32 (v : ℕ) (rest : List ℕ) :
    read_u32 (write_u32 v ++ rest) = .ok (v % 2 ^ 32, rest) := by
  simp only [write_u32, List.cons_append, List.nil_append, read_u32]
  refine congrArg (fun x => Except.ok (x, rest)) ?_
  omega

theorem read_u32_write_u32_lt (v : ℕ) (rest : List ℕ) (h : v < 2 ^ 32) :
    read_u32 (write_u32 v ++ rest) = .ok (v, rest) := by
  rw [read_u32_write_u32, Nat.mod_eq_of_lt h]

/-- C1: for every supported container variant (Ggml, Ggmf(v), Ggjt(v),
Ggla(v)) and every 32-bit version v, `ContainerType::write` followed by
`ContainerType::read` on the written bytes returns Ok of exactly the
same variant and version. -/
theorem C1_container_roundtrip (c : ContainerType) (rest : List ℕ)
    (h : c.versionOf < 2 ^ 32) :
    ContainerType.read (c.write ++ rest) = .ok (c, rest) := by
  cases c <;>
    simp_all [ContainerType.write, ContainerType.read, ContainerType.versionOf,
      List.append_assoc, read_u32_write_u32_lt, FILE_MAGIC_GGML, FILE_MAGIC_GGMF,
      FILE_MAGIC_GGJT, FILE_MAGIC_GGLA, Bind.bind, Except.bind, Functor.map,
      Except.map, pure, Except.pure]

theorem C1_container_roundtrip_witness :
    (ContainerType.Ggjt 3).versionOf < 2 ^ 32 ∧
    ContainerType.read ((ContainerType.Ggjt 3).write ++ [7]) =
      .ok (.Ggjt 3, [7]) :=
  ⟨by decide, C1_container_roundtrip (.Ggjt 3) [7] (by decide)⟩

/-- C5: for every 4-byte magic value that is not one of FILE_MAGIC_GGML,
FILE_MAGIC_GGMF, FILE_MAGIC_GGJT, FILE_MAGIC_GGLA, `ContainerType::read`
returns the typed recoverable error `LoadError::InvalidMagic` carrying
that magic value (the read function is total, so it never panics). -/
theorem C5_invalid_magic (m : ℕ) (rest : List ℕ) (h : m < 2 ^ 32)
    (h1 : m ≠ FILE_MAGIC_GGML) (h2 : m ≠ FILE_MAGIC_GGMF)
    (h3 : m ≠ FILE_MAGIC_GGJT) (h4 : m ≠ FILE_MAGIC_GGLA) :
    ContainerType.read (write_u32 m ++ rest) = .error (.invalidMagic m) := by
  simp [ContainerType.read, read_u32_write_u32_lt m rest h, h1, h2, h3, h4,
    throw, throwThe, MonadExceptOf.throw, Bind.bind, Except.bind]

theorem C5_invalid_magic_witness :
    (0 : ℕ) < 2 ^ 32 ∧ (0 : ℕ) ≠ FILE_MAGIC_GGML ∧ (0 : ℕ) ≠ FILE_MAGIC_GGMF ∧
    (0 : ℕ) ≠ FILE_MAGIC_GGJT ∧ (0 : ℕ) ≠ FILE_MAGIC_GGLA ∧
    ContainerType.read (write_u32 0 ++ []) = .error (.invalidMagic 0) :=
  ⟨by decide, by decide, by decide, by decide, by decide,
    C5_invalid_magic 0 [] (by decide) (by decide) (by decide) (by decide) (by decide)⟩

/-- C8: `Type::is_quantized` returns true for exactly the seven
block-quantized element types and false for exactly the three plain
types. -/
theorem C8_is_quantized :
    ElementType.Q4_0.is_quantized = true ∧
    ElementType.Q4_1.is_quantized = true ∧
    ElementType.Q5_0.is_quantized = true ∧
    ElementType.Q5_1.is_quantized = true ∧
    ElementType.Q8_0.is_quantized = true ∧
    ElementType.Q8_1.is_quantized = true ∧
    ElementType.LegacyQ4_2.is_quantized = true ∧
    ElementType.I32.is_quantized = false ∧
    ElementType.F16.is_quantized = false ∧
    ElementType.F32.is_quantized = false := by
  decide

/-- C3 (counterexample): with `n_elements_0 = 0` and a source of 5
elements, `n_elements = 5` is not divisible by `n_elements_0 = 0`, so
the claim as stated requires an assertion failure; but the code panics
with Rust's remainder-by-zero panic while evaluating
`n_elements % n_elements_0`, before the divisibility assertion is ever
checked, so no assertion fires. -/
theorem C3_counterexample :
    ¬ ((isAssertionFailure
          (quantize_impl (List.replicate 5 (0 : Float)) 5 0 trivialQuantizer) = true) ↔
        ((List.replicate 5 (0 : Float)).length ≠ 5 ∨ ¬ (0 ∣ 5))) := by
  decide

/-- C3 (amended): provided `n_elements_0 ≠ 0`, `quantize_impl` (hence
`quantize_q4_0` and `quantize_q4_1`) fails with an assertion exactly
when `src.len()` differs from `n_elements` or `n_elements` is not
divisible by `n_elements_0`; and under the precondition
`src.len() = n_elements` and `n_elements_0 ∣ n_elements`, neither
assertion fires. -/
theorem C3_quantize_assertions (src : List Float) (n_elements n_elements_0 : ℕ)
    (q : Quantizer) (h0 : n_elements_0 ≠ 0) :
    (isAssertionFailure (quantize_impl src n_elements n_elements_0 q) = true ↔
      (src.length ≠ n_elements ∨ ¬ n_elements_0 ∣ n_elements)) ∧
    ((src.length = n_elements ∧ n_elements_0 ∣ n_elements) →
      isAssertionFailure (quantize_impl src n_elements n_elements_0 q) = false) := by
  have hdvd : (n_elements_0 ∣ n_elements) ↔ n_elements % n_elements_0 = 0 :=
    Nat.dvd_iff_mod_eq_zero
  by_cases h1 : src.length = n_elements
  · by_cases h2 : n_elements % n_elements_0 = 0
    · have hfalse :
          isAssertionFailure (quantize_impl src n_elements n_elements_0 q) = false := by
        unfold quantize_impl
        rw [if_neg (fun hh => hh h1), if_neg h0, if_neg (fun hh => hh h2)]
        by_cases h3 : 2 ^ 31 ≤ n_elements
        · rw [if_pos h3]; rfl
        · rw [if_neg h3]
          by_cases h4 : 2 ^ 31 ≤ n_elements_0
          · rw [if_pos h4]; rfl
          · rw [if_neg h4]; rfl
      refine ⟨?_, fun _ => hfalse⟩
      rw [hfalse]
      simp [h1, hdvd, h2]
    · refine ⟨?_, ?_⟩
      · simp [quantize_impl, h1, h0, h2, isAssertionFailure, hdvd]
      · rintro ⟨-, hd⟩
        exact absurd (hdvd.mp hd) h2
  · refine ⟨?_, ?_⟩
    · simp [quantize_impl, h1, isAssertionFailure]
    · rintro ⟨hl, -⟩
      exact absurd hl h1

theorem C3_quantize_assertions_witness :
    (2 : ℕ) ≠ 0 ∧
    ((isAssertionFailure
        (quantize_impl [(0 : Float), 0] 2 2 trivialQuantizer) = true ↔
      (([(0 : Float), 0].length ≠ 2) ∨ ¬ (2 ∣ 2))) ∧
    (([(0 : Float), 0].length = 2 ∧ 2 ∣ 2) →
      isAssertionFailure
        (quantize_impl [(0 : Float), 0] 2 2 trivialQuantizer) = false)) :=
  ⟨by decide, C3_quantize_assertions [(0 : Float), 0] 2 2 trivialQuantizer (by decide)⟩

/-- C4 (counterexample): for `n_elements = 1` (one 32-bit float, 4 input
bytes) the claim as stated requires an allocation of at least
`16 * n_elements = 16` bytes, but `quantize_impl` allocates
`vec![0u8; n_elements * 4]`, i.e. 4 bytes. -/
theorem C4_counterexample :
    allocatedOf (quantize_impl [(0 : Float)] 1 1 trivialQuantizer) = 4 ∧
    ¬ (16 * 1 ≤ allocatedOf (quantize_impl [(0 : Float)] 1 1 trivialQuantizer)) := by
  decide

/-- C4 (amended): for every input satisfying the quantize preconditions
whose `n_elements` and `n_elements_0` also fit in an `i32` (values of
`2^31` or more panic at the `usize`-to-`c_int` `try_into().unwrap()`
conversions before the codec is called), `quantize_impl` allocates an
output buffer of exactly `n_elements * 4` bytes — 4 bytes per element,
i.e. equal to (1 times) the input's byte size of `n_elements` 32-bit
floats — before trimming it to the codec's emitted length. -/
theorem C4_quantize_alloc (src : List Float) (n_elements n_elements_0 : ℕ)
    (q : Quantizer) (h1 : src.length = n_elements) (h2 : n_elements_0 ≠ 0)
    (h3 : n_elements % n_elements_0 = 0) (h4 : n_elements < 2 ^ 31)
    (h5 : n_elements_0 < 2 ^ 31) :
    ∃ t, quantize_impl src n_elements n_elements_0 q = .ok t ∧
      t.allocatedOutputSize = n_elements * 4 := by
  unfold quantize_impl
  rw [if_neg (fun hh => hh h1), if_neg h2, if_neg (fun hh => hh h3),
    if_neg (not_le.mpr h4), if_neg (not_le.mpr h5)]
  refine ⟨_, rfl, ?_⟩
  simp

theorem C4_quantize_alloc_witness :
    ([(0 : Float), 0].length = 2 ∧ (2 : ℕ) ≠ 0 ∧ (2 : ℕ) % 2 = 0 ∧
     (2 : ℕ) < 2 ^ 31 ∧ (2 : ℕ) < 2 ^ 31) ∧
    ∃ t, quantize_impl [(0 : Float), 0] 2 2 trivialQuantizer = .ok t ∧
      t.allocatedOutputSize = 2 * 4 :=
  ⟨⟨by decide, by decide, by decide, by decide, by decide⟩,
    C4_quantize_alloc [(0 : Float), 0] 2 2 trivialQuantizer (by decide) (by decide)
      (by decide) (by decide) (by decide)⟩

/-- C10: for every version v, `ContainerType::support_mmap` returns true
on Ggjt(v) and false on Ggml, Ggmf(v), and Ggla(v); the answer depends
only on the variant, never on the version number. -/
theorem C10_support_mmap (v : ℕ) :
    (ContainerType.Ggjt v).support_mmap = true ∧
    ContainerType.Ggml.support_mmap = false ∧
    (ContainerType.Ggmf v).support_mmap = false ∧
    (ContainerType.Ggla v).support_mmap = false :=
  ⟨rfl, rfl, rfl, rfl⟩

end Ggml

namespace Bloom

theorem read_i32_write_i32_nat (v : ℕ) (h : v < 2 ^ 31) (rest : List ℕ) :
    read_i32 (write_i32 (v : ℤ) ++ rest) = .ok ((v : ℤ), rest) := by
  have h32 : v < 2 ^ 32 := by omega
  have hmod : ((v : ℤ) % 2 ^ 32).toNat = v := by omega
  simp only [write_i32, hmod, read_i32, Ggml.read_u32_write_u32_lt v rest h32,
    Bind.bind, Except.bind]
  rw [if_pos h]

theorem usize_try_from_i32_nat (v : ℕ) :
    usize_try_from_i32 (v : ℤ) = .ok v := by
  simp [usize_try_from_i32]

/-- C9: for every `Hyperparameters` value whose six fields each fit in a
non-negative i32, `write_ggml` followed by `read_ggml` on the written
bytes returns Ok of an equal `Hyperparameters` value, the fields being
written and read in the same order. -/
theorem C9_hyperparameters_roundtrip (hp : Hyperparameters) (rest : List ℕ)
    (h1 : hp.n_vocab < 2 ^ 31) (h2 : hp.n_embd < 2 ^ 31) (h3 : hp.n_mult < 2 ^ 31)
    (h4 : hp.n_head < 2 ^ 31) (h5 : hp.n_layer < 2 ^ 31)
    (h6 : hp.file_type.code < 2 ^ 31) :
    ∃ bytes, hp.write_ggml = .ok bytes ∧
      Hyperparameters.read_ggml (bytes ++ rest) = .ok (hp, rest) := by
  obtain ⟨nv, nemb, nm, nhd, nl, ⟨ftc⟩⟩ := hp
  simp only at h1 h2 h3 h4 h5 h6
  refine ⟨write_i32 (nv : ℤ) ++ write_i32 (nemb : ℤ) ++ write_i32 (nm : ℤ) ++
      write_i32 (nhd : ℤ) ++ write_i32 (nl : ℤ) ++ write_i32 (ftc : ℤ), ?_, ?_⟩
  · unfold Hyperparameters.write_ggml i32_try_from_usize
    rw [if_pos h1, if_pos h2, if_pos h3, if_pos h4, if_pos h5]
    rfl
  · simp [Hyperparameters.read_ggml, read_filetype, List.append_assoc,
      Bind.bind, Except.bind, read_i32_write_i32_nat nv h1,
      read_i32_write_i32_nat nemb h2, read_i32_write_i32_nat nm h3,
      read_i32_write_i32_nat nhd h4, read_i32_write_i32_nat nl h5,
      read_i32_write_i32_nat ftc h6, usize_try_from_i32_nat,
      Int.toNat_natCast, Int.natCast_nonneg]

theorem C9_hyperparameters_roundtrip_witness :
    ((1 : ℕ) < 2 ^ 31 ∧ (2 : ℕ) < 2 ^ 31 ∧ (3 : ℕ) < 2 ^ 31 ∧
     (4 : ℕ) < 2 ^ 31 ∧ (5 : ℕ) < 2 ^ 31 ∧ (0 : ℕ) < 2 ^ 31) ∧
    ∃ bytes,
      Hyperparameters.write_ggml
        { n_vocab := 1, n_embd := 2, n_mult := 3, n_head := 4, n_layer := 5,
          file_type := ⟨0⟩ } = .ok bytes ∧
      Hyperparameters.read_ggml (bytes ++ [9]) =
        .ok ({ n_vocab := 1, n_embd := 2, n_mult := 3, n_head := 4, n_layer := 5,
               file_type := ⟨0⟩ }, [9]) :=
  ⟨⟨by decide, by decide, by decide, by decide, by decide, by decide⟩,
    C9_hyperparameters_roundtrip
      { n_vocab := 1, n_embd := 2, n_mult := 3, n_head := 4, n_layer := 5,
        file_type := ⟨0⟩ } [9]
      (by decide) (by decide) (by decide) (by decide) (by decide) (by decide)⟩

/-- C6: in every layer il of `Bloom::evaluate` with `n >= 1` input
tokens (and any layer input expression carrying no cache views of its
own), the key and value cache views written this step are 1-d views of
`n * n_embd` elements at byte offset
`element_size * n_embd * (il * n_context_tokens + n_past)`, and the
attention read-back views cover the full `(n_past + n) * n_embd`
elements starting at byte offset
`il * n_context_tokens * element_size * n_embd`. -/
theorem C6_cache_views (p : EvalParams) (il : ℕ) (x : T) (hn : 1 ≤ p.n)
    (hk : viewsOf .memory_k x = []) (hv : viewsOf .memory_v x = []) :
    viewsOfAll .memory_k (bloomLayer p il x).1 =
      [(p.n * p.n_embd, p.memKElSize * p.n_embd * (il * p.n_ctx + p.n_past))] ∧
    viewsOfAll .memory_v (bloomLayer p il x).1 =
      [(p.n * p.n_embd, p.memVElSize * p.n_embd * (il * p.n_ctx + p.n_past))] ∧
    ((((p.n_past + p.n) * p.n_embd, il * p.n_ctx * p.memKElSize * p.n_embd) ∈
        viewsOf .memory_k (bloomLayer p il x).2) ∧
      ∀ v ∈ viewsOf .memory_k (bloomLayer p il x).2,
        v = ((p.n_past + p.n) * p.n_embd, il * p.n_ctx * p.memKElSize * p.n_embd)) ∧
    ((((p.n_past + p.n) * p.n_embd, il * p.n_ctx * p.memVElSize * p.n_embd) ∈
        viewsOf .memory_v (bloomLayer p il x).2) ∧
      ∀ v ∈ viewsOf .memory_v (bloomLayer p il x).2,
        v = ((p.n_past + p.n) * p.n_embd, il * p.n_ctx * p.memVElSize * p.n_embd)) := by
  simp [bloomLayer, if_pos hn, viewsOfAll, viewsOf, nodeView, hk, hv,
    op_get_rows, op_norm, op_mul, op_add, op_repeat, op_mul_mat, op_scale,
    op_alibi, op_diag_mask_inf, op_soft_max, op_gelu, op_cpy, op_permute,
    op_view_1d, op_view_2d, op_reshape_3d, new_f32, new_tensor_2d, new_tensor_3d]

theorem C6_cache_views_witness :
    (1 ≤ overflowParams.n ∧
     viewsOf .memory_k (.leaf .embd) = [] ∧
     viewsOf .memory_v (.leaf .embd) = []) ∧
    (viewsOfAll .memory_k (bloomLayer overflowParams 0 (.leaf .embd)).1 =
      [(overflowParams.n * overflowParams.n_embd,
        overflowParams.memKElSize * overflowParams.n_embd *
          (0 * overflowParams.n_ctx + overflowParams.n_past))] ∧
     viewsOfAll .memory_v (bloomLayer overflowParams 0 (.leaf .embd)).1 =
      [(overflowParams.n * overflowParams.n_embd,
        overflowParams.memVElSize * overflowParams.n_embd *
          (0 * overflowParams.n_ctx + overflowParams.n_past))] ∧
     ((((overflowParams.n_past + overflowParams.n) * overflowParams.n_embd,
         0 * overflowParams.n_ctx * overflowParams.memKElSize * overflowParams.n_embd) ∈
         viewsOf .memory_k (bloomLayer overflowParams 0 (.leaf .embd)).2) ∧
       ∀ v ∈ viewsOf .memory_k (bloomLayer overflowParams 0 (.leaf .embd)).2,
         v = ((overflowParams.n_past + overflowParams.n) * overflowParams.n_embd,
           0 * overflowParams.n_ctx * overflowParams.memKElSize * overflowParams.n_embd)) ∧
     ((((overflowParams.n_past + overflowParams.n) * overflowParams.n_embd,
         0 * overflowParams.n_ctx * overflowParams.memVElSize * overflowParams.n_embd) ∈
         viewsOf .memory_v (bloomLayer overflowParams 0 (.leaf .embd)).2) ∧
       ∀ v ∈ viewsOf .memory_v (bloomLayer overflowParams 0 (.leaf .embd)).2,
         v = ((overflowParams.n_past + overflowParams.n) * overflowParams.n_embd,
           0 * overflowParams.n_ctx * overflowParams.memVElSize * overflowParams.n_embd))) :=
  ⟨⟨by decide, rfl, rfl⟩,
    C6_cache_views overflowParams 0 (.leaf .embd) (by decide) rfl rfl⟩

theorem softMaxMasked_inputEmbeddingNorm (np : ℕ) :
    softMaxMasked np inputEmbeddingNorm = true := rfl

theorem softMaxMasked_bloomLayer (p : EvalParams) (il : ℕ) (x : T)
    (hx : softMaxMasked p.n_past x = true) :
    softMaxMasked p.n_past (bloomLayer p il x).2 = true ∧
    ∀ r ∈ (bloomLayer p il x).1, softMaxMasked p.n_past r = true := by
  by_cases hn : 1 ≤ p.n
  · simp [bloomLayer, if_pos hn, softMaxMasked, nodeSoftMaxOk, isMaskedScores, hx,
      op_get_rows, op_norm, op_mul, op_add, op_repeat, op_mul_mat, op_scale,
      op_alibi, op_diag_mask_inf, op_soft_max, op_gelu, op_cpy, op_permute,
      op_view_1d, op_view_2d, op_reshape_3d, new_f32, new_tensor_2d, new_tensor_3d]
  · simp [bloomLayer, if_neg hn, softMaxMasked, nodeSoftMaxOk, isMaskedScores, hx,
      op_get_rows, op_norm, op_mul, op_add, op_repeat, op_mul_mat, op_scale,
      op_alibi, op_diag_mask_inf, op_soft_max, op_gelu, op_cpy, op_permute,
      op_view_1d, op_view_2d, op_reshape_3d, new_f32, new_tensor_2d, new_tensor_3d]

theorem softMaxMasked_evaluateLayers (p : EvalParams) :
    (∀ r ∈ (evaluateLayers p).1, softMaxMasked p.n_past r = true) ∧
    softMaxMasked p.n_past (evaluateLayers p).2 = true := by
  unfold evaluateLayers
  suffices h : ∀ (l : List ℕ) (acc : List T × T),
      (∀ r ∈ acc.1, softMaxMasked p.n_past r = true) →
      softMaxMasked p.n_past acc.2 = true →
      (∀ r ∈ (l.foldl
          (fun acc il =>
            let step := bloomLayer p il acc.2
            (acc.1 ++ step.1, step.2)) acc).1,
          softMaxMasked p.n_past r = true) ∧
      softMaxMasked p.n_past (l.foldl
          (fun acc il =>
            let step := bloomLayer p il acc.2
            (acc.1 ++ step.1, step.2)) acc).2 = true by
    exact h (List.range p.n_layer) ([], inputEmbeddingNorm)
      (by intro r hr; cases hr) (softMaxMasked_inputEmbeddingNorm p.n_past)
  intro l
  induction l with
  | nil => exact fun acc h1 h2 => ⟨h1, h2⟩
  | cons hd tl ih =>
      intro acc h1 h2
      simp only [List.foldl_cons]
      apply ih
      · intro r hr
        rcases List.mem_append.mp hr with hmem | hmem
        · exact h1 r hmem
        · exact (softMaxMasked_bloomLayer p hd acc.2 h2).2 r hmem
      · exact (softMaxMasked_bloomLayer p hd acc.2 h2).1

/-- C7: in every layer of the forward pass built by `Bloom::evaluate`,
the causal mask (`op_diag_mask_inf` with `n_past`) is applied to the
scaled attention scores strictly before `op_soft_max`: every
`op_soft_max` node anywhere in the built graph has as its operand the
causal-mask node over the (alibi-biased) scaled scores. -/
theorem C7_mask_before_softmax (p : EvalParams) :
    ((evaluateGraph p).1).all (softMaxMasked p.n_past) = true := by
  have h := softMaxMasked_evaluateLayers p
  rw [List.all_eq_true]
  intro r hr
  unfold evaluateGraph at hr
  simp only [List.mem_append, List.mem_singleton] at hr
  rcases hr with hmem | hmem
  · exact h.1 r hmem
  · subst hmem
    simp [softMaxMasked, nodeSoftMaxOk, op_norm, op_mul, op_add, op_repeat,
      op_mul_mat, h.2]

set_option maxRecDepth 100000 in
/-- C2: at the overflow input (`n_ctx = 4`, `n_past = 3`, `n = 2`,
single layer, `n_embd = 1`, 4-byte cache elements) `Bloom::evaluate`
does not fail: it builds the KV cache-copy write view at byte offset 12
with 2 elements (bytes 12..20), beyond the cache's 16-byte capacity,
builds the read-back view over 5 elements though the cache holds only 4,
and the session cursor still advances to `n_past = 5 > n_ctx`. -/
theorem C2_overflow_views_built :
    (viewsOfAll .memory_k (evaluateGraph overflowParams).1).dedup = [(2, 12), (5, 0)] ∧
    overflowParams.memKElSize * cacheCapacityElems overflowParams = 16 ∧
    16 < 12 + 2 * 4 ∧
    cacheCapacityElems overflowParams < 5 ∧
    update_session_n_past overflowParams.n_past overflowParams.n = 5 ∧
    overflowParams.n_ctx < 5 := by
  refine ⟨by decide, by decide, by decide, by decide, by decide, by decide⟩

end Bloom
